import Mathlib

/-!
PAL API layer (`Pal.cpp`): shallow embedding

`Pal.cpp` is the C API of the platform audio layer.  Every entry point checks
its arguments, casts the stream handle to a `Stream *`, forwards to one or
more methods of `Stream` / `ResourceManager`, and returns a status.

The classes `Stream` and `ResourceManager` are not part of the sources at
hand, so their methods are oracles (fields of `Env`) acting on an abstract
collaborator state `κ`.  What `Pal.cpp` itself does is embedded literally:
argument checks, the order of the calls, what is done with each returned
status, early returns, `delete`, and the writes to `globalCb` / `cookie`.
Every call into a collaborator is appended to a trace, so that statements
such as "is invoked exactly once" or "is never invoked" are statements about
that trace.

Conventions of the embedding:
* a pointer is an `Option`, `none` being `NULL`; calling a method through a
  null pointer is the outcome `fault`;
* a counted array `(n, ptr)` is an `Option (List _)`: `none` for a null
  pointer, else the list of its `n` elements;
* an out-parameter is returned: a getter returns its status together with the
  content of the variable it was given;
* the getters of `Stream` and `getDeviceInfo` read the collaborator state and
  leave it as it is; every other method may change it;
* `int` statuses are integers (the code only compares and negates them);
* a collaborator may throw; the two handlers of `Pal.cpp` catch
  `const std::exception&` only, so `Env.stdException` says whether what was
  thrown is one, and anything else leaves the function (outcome `raise`);
* the logging macros (`PAL_ERR`, `PAL_DBG`, ...) are left out.
-/

namespace PalApi

/-! ## Data model -/

/-- Value of `EINVAL` in `errno.h`. -/
def EINVAL : Int := 22

/-- Enumeration `pal_stream_type_t` (declared in a header that is not at hand). -/
abbrev pal_stream_type_t := Nat
/-- Enumeration `pal_stream_direction_t`. -/
abbrev pal_stream_direction_t := Nat
/-- Enumeration `pal_device_id_t`. -/
abbrev pal_device_id_t := Nat

/-- Address of a `Stream` object.  A `Stream *` / `pal_stream_handle_t *` is an
`Option Handle`, with `none` for `NULL`. -/
abbrev Handle := Nat

/-- Pointer to caller data that `Pal.cpp` only tests against `NULL` and passes
on (`pal_buffer *`, payloads, cookies, callbacks); `none` is `NULL`. -/
abbrev Ptr := Option Nat

/-- The fields of `struct pal_stream_attributes` that `Pal.cpp` reads, and the
rest of the record as one number. -/
structure pal_stream_attributes where
  type : pal_stream_type_t
  direction : pal_stream_direction_t
  rest : Nat
  deriving DecidableEq

/-- A `struct pal_device`: the id read by `Pal.cpp`, and the configuration that
`getDeviceConfig` fills in. -/
structure pal_device where
  id : pal_device_id_t
  config : Nat
  deriving DecidableEq

/-- The fields of `struct pal_device_info` that `Pal.cpp` reads. -/
structure pal_device_info where
  channels : Int
  max_channels : Int
  deriving DecidableEq

/-- A `struct modifier_kv`, passed through to `Stream::create`. -/
structure modifier_kv where
  key : Nat
  value : Nat
  deriving DecidableEq

/-- The `Stream` methods called from `Pal.cpp`, with the arguments passed. -/
inductive StreamMethod
  | open
  | close
  | start
  | stop
  | write (buf : Ptr)
  | read (buf : Ptr)
  | getParameters (param_id : Nat) (param_payload : Ptr)
  | setParameters (param_id : Nat) (param_payload : Ptr)
  | setVolume (volume : Ptr)
  | setMute (state : Bool)
  | setPause
  | setResume
  | drain (type : Nat)
  | flush
  | setBufInfo (in_buf_size : Ptr) (in_buf_count : Nat) (out_buf_size : Ptr)
      (out_buf_count : Nat)
  | getTimestamp (stime : Ptr)
  | addRemoveEffect (effect : Nat) (enable : Bool)
  | switchDevice (s : Option Handle) (devices : List pal_device)
  | GetMmapPosition (position : Ptr)
  | createMmapBuffer (min_size_frames : Int) (info : Ptr)
  | registerCallBack (cb : Ptr) (cookie : Ptr)
  | getStreamType
  | getStreamDirection
  | getStreamAttributes
  deriving DecidableEq

/-- The `ResourceManager` methods called from `Pal.cpp`, with the arguments
passed. -/
inductive RmMethod
  | initSndMonitor
  | init
  | ConcurrentStreamStatus (type : pal_stream_type_t) (dir : pal_stream_direction_t)
      (active : Bool)
  | getDeviceInfo (id : pal_device_id_t) (type : pal_stream_type_t)
  | getDeviceConfig (dev : pal_device) (sattr : pal_stream_attributes) (channels : Int)
  | setParameter (param_id : Nat) (param_payload : Ptr) (payload_size : Nat)
  | getParameter (param_id : Nat) (param_payload : Ptr) (payload_size : Ptr) (query : Ptr)
  | setParameterDev (param_id : Nat) (param_payload : Ptr) (payload_size : Nat)
      (pal_device_id : pal_device_id_t) (pal_stream_type : pal_stream_type_t)
  | getParameterDev (param_id : Nat) (param_payload : Ptr) (payload_size : Nat)
      (pal_device_id : pal_device_id_t) (pal_stream_type : pal_stream_type_t)
  deriving DecidableEq

/-- One call from `Pal.cpp` into a collaborator. -/
inductive Event
  | getInstance
  | deinit
  | rm (m : RmMethod)
  | create (attributes : pal_stream_attributes) (devices : Option (List pal_device))
      (modifiers : Option (List modifier_kv))
  | stream (s : Handle) (m : StreamMethod)
  | delete (s : Handle)
  deriving DecidableEq

/-- What `ResourceManager::getInstance()` does: throw, or return a shared
pointer that is null or the singleton. -/
inductive GetInst
  | raised
  | null
  | inst
  deriving DecidableEq

/-- What `Stream::create` does: throw, or return a `Stream *` (possibly null). -/
inductive Created
  | raised
  | ptr (s : Option Handle)
  deriving DecidableEq

/-- The collaborators of `Pal.cpp`, over their internal state `κ`, and
the enumeration constants of the headers that are not at hand. -/
structure Env (κ : Type) where
  PAL_STREAM_VOICE_UI : pal_stream_type_t
  PAL_STREAM_VOIP_TX : pal_stream_type_t
  GEF_PARAM_WRITE : Nat
  /-- Method `ResourceManager::getInstance()`. -/
  getInstance : κ → GetInst × κ
  /-- Method `ResourceManager::deinit()`. -/
  deinit : κ → κ
  /-- Status-returning methods of the resource manager. -/
  rmCall : κ → RmMethod → Int × κ
  /-- Method `getDeviceInfo(id, type, &devinfo)`: the content of `devinfo` after the
  call, from its content before. -/
  getDeviceInfo : κ → pal_device_id_t → pal_stream_type_t → pal_device_info → pal_device_info
  /-- Method `getDeviceConfig(&dev, &sattr, channels)`: status and the device record
  after the call. -/
  getDeviceConfig : κ → pal_device → pal_stream_attributes → Int → (Int × pal_device) × κ
  /-- Method `Stream::create(attributes, devices, no_of_devices, modifiers, no_of_modifiers)`;
  a counted array is a list, its count the length. -/
  create : κ → pal_stream_attributes → Option (List pal_device) →
    Option (List modifier_kv) → Created × κ
  /-- Status-returning methods of a stream. -/
  streamCall : κ → Handle → StreamMethod → Int × κ
  /-- The destructor of `Stream`, run by `delete s`. -/
  destroy : κ → Handle → κ
  /-- Method `getStreamType(&type)`: status, and the content of `type` after the call. -/
  getStreamType : κ → Handle → Int × pal_stream_type_t
  /-- Method `getStreamDirection(&dir)`: status, and the content of `dir` after the call. -/
  getStreamDirection : κ → Handle → Int × pal_stream_direction_t
  /-- Method `getStreamAttributes(&sattr)`: status, and the content of `sattr` after the call. -/
  getStreamAttributes : κ → Handle → Int × pal_stream_attributes
  /-- Whether the exception that a collaborator has thrown, leaving the state
  given, derives from `std::exception`, which is what the handlers
  `catch (const std::exception&)` of `Pal.cpp` catch. -/
  stdException : κ → Bool

/-- Everything a call of the API can read or change. -/
structure World (κ : Type) where
  /-- Internal state of the collaborators. -/
  ext : κ
  /-- The `Stream` objects that exist: created and not yet deleted. -/
  live : List Handle
  /-- Field `ResourceManager::globalCb`. -/
  globalCb : Ptr
  /-- Field `ResourceManager::cookie`. -/
  cookie : Ptr
  /-- The calls made into collaborators so far, oldest first. -/
  trace : List Event

/-- How a call ends: it returns a value, a C++ exception leaves it, or it
dereferences a null pointer (undefined behaviour). -/
inductive Outcome (κ α : Type)
  | ret (v : α) (w : World κ)
  | raise (w : World κ)
  | fault

/-- A piece of `Pal.cpp`: from the world before to the outcome. -/
def Act (κ α : Type) : Type := World κ → Outcome κ α

/-- Sequencing: run `x`, and `f` on what it returned; an exception or fault of
`x` ends the whole. -/
def Act.bind {κ α β : Type} (x : Act κ α) (f : α → Act κ β) : Act κ β := fun w =>
  match x w with
  | .ret v w1 => f v w1
  | .raise w1 => .raise w1
  | .fault => .fault

instance {κ : Type} : Monad (Act κ) where
  pure v := fun w => .ret v w
  bind := Act.bind

/-- Record a call in the trace. -/
def World.log {κ : Type} (w : World κ) (e : Event) : World κ :=
  { w with trace := w.trace ++ [e] }

/-! ## Calls into the collaborators -/

/-- Call `ResourceManager::getInstance()`; the result is whether the shared pointer
returned is non-null. -/
def getInstance {κ : Type} (env : Env κ) : Act κ Bool := fun w =>
  let r := env.getInstance w.ext
  let w1 := { w.log .getInstance with ext := r.2 }
  match r.1 with
  | .raised => .raise w1
  | .null => .ret false w1
  | .inst => .ret true w1

/-- Call `rm->m(...)` for a shared pointer `rm`: a null `rm` is dereferenced. -/
def rmInvoke {κ : Type} (env : Env κ) (rm : Bool) (m : RmMethod) : Act κ Int := fun w =>
  if rm then
    let r := env.rmCall w.ext m
    .ret r.1 { w.log (.rm m) with ext := r.2 }
  else .fault

/-- Call `s->m(...)` for a `Stream *s`: a null `s` is dereferenced. -/
def invoke {κ : Type} (env : Env κ) (s : Option Handle) (m : StreamMethod) : Act κ Int :=
  fun w =>
  match s with
  | none => .fault
  | some h =>
    let r := env.streamCall w.ext h m
    .ret r.1 { w.log (.stream h m) with ext := r.2 }

/-- Call `s->getStreamType(&type)`: returns the status and the content of `type`. -/
def getStreamType {κ : Type} (env : Env κ) (s : Option Handle) :
    Act κ (Int × pal_stream_type_t) := fun w =>
  match s with
  | none => .fault
  | some h => .ret (env.getStreamType w.ext h) (w.log (.stream h .getStreamType))

/-- Call `s->getStreamDirection(&dir)`: returns the status and the content of `dir`. -/
def getStreamDirection {κ : Type} (env : Env κ) (s : Option Handle) :
    Act κ (Int × pal_stream_direction_t) := fun w =>
  match s with
  | none => .fault
  | some h => .ret (env.getStreamDirection w.ext h) (w.log (.stream h .getStreamDirection))

/-- Call `s->getStreamAttributes(&sattr)`: returns the status and the content of `sattr`. -/
def getStreamAttributes {κ : Type} (env : Env κ) (s : Option Handle) :
    Act κ (Int × pal_stream_attributes) := fun w =>
  match s with
  | none => .fault
  | some h => .ret (env.getStreamAttributes w.ext h) (w.log (.stream h .getStreamAttributes))


/-- Call `rm->getDeviceInfo(id, type, &devinfo)`: returns the content of `devinfo`
after the call. -/
def rmGetDeviceInfo {κ : Type} (env : Env κ) (rm : Bool) (id : pal_device_id_t)
    (type : pal_stream_type_t) (devinfo : pal_device_info) : Act κ pal_device_info := fun w =>
  if rm then
    .ret (env.getDeviceInfo w.ext id type devinfo) (w.log (.rm (.getDeviceInfo id type)))
  else .fault

/-- Call `rm->getDeviceConfig(&dev, &sattr, channels)`: returns the status and the
device record after the call. -/
def rmGetDeviceConfig {κ : Type} (env : Env κ) (rm : Bool) (dev : pal_device)
    (sattr : pal_stream_attributes) (channels : Int) : Act κ (Int × pal_device) := fun w =>
  if rm then
    let r := env.getDeviceConfig w.ext dev sattr channels
    .ret r.1 { w.log (.rm (.getDeviceConfig dev sattr channels)) with ext := r.2 }
  else .fault

/-- Call `rm->globalCb = cb; rm->cookie = cookie;` for a shared pointer `rm`. -/
def rmSetGlobalCb {κ : Type} (rm : Bool) (cb cookie : Ptr) : Act κ Unit := fun w =>
  if rm then .ret () { w with globalCb := cb, cookie := cookie } else .fault

/-- Call `ResourceManager::deinit()`. -/
def rmDeinit {κ : Type} (env : Env κ) : Act κ Unit := fun w =>
  .ret () { w.log .deinit with ext := env.deinit w.ext }

/-- Call `Stream::create(...)`: the object returned is a new live stream. -/
def streamCreate {κ : Type} (env : Env κ) (attributes : pal_stream_attributes)
    (devices : Option (List pal_device)) (modifiers : Option (List modifier_kv)) :
    Act κ (Option Handle) := fun w =>
  let r := env.create w.ext attributes devices modifiers
  let w1 := { w.log (.create attributes devices modifiers) with ext := r.2 }
  match r.1 with
  | .raised => .raise w1
  | .ptr none => .ret none w1
  | .ptr (some h) => .ret (some h) { w1 with live := h :: w1.live }

/-- Call `delete s`: runs the destructor and frees the object; nothing for `NULL`. -/
def delete {κ : Type} (env : Env κ) (s : Option Handle) : Act κ Unit := fun w =>
  match s with
  | none => .ret () w
  | some h => .ret () { w.log (.delete h) with ext := env.destroy w.ext h, live := w.live.erase h }

/-! ## `Pal.cpp` -/

/-- Function `notify_concurrent_stream(type, dir, active)`. -/
def notify_concurrent_stream {κ : Type} (env : Env κ) (type : pal_stream_type_t)
    (dir : pal_stream_direction_t) (active : Bool) : Act κ Unit := do
  let rm ← getInstance env
  if !rm then
    return ()
  let _ ← rmInvoke env rm (.ConcurrentStreamStatus type dir active)
  return ()

/-- Function `pal_deinit()`. -/
def pal_deinit {κ : Type} (env : Env κ) : Act κ Unit :=
  rmDeinit env

/-- Function `pal_stream_open(attributes, no_of_devices, devices, no_of_modifiers,
modifiers, cb, cookie, stream_handle)`.  The counted arrays are lists.  The
out-parameter `stream_handle` is `none` for a null pointer and `some c` for a
pointer to a cell holding `c`; the cell after the call is returned with the
status.  The handler around `Stream::create` catches `const std::exception&`:
any other exception leaves the function. -/
def pal_stream_open {κ : Type} (env : Env κ) (attributes : Option pal_stream_attributes)
    (devices : Option (List pal_device)) (modifiers : Option (List modifier_kv))
    (cb cookie : Ptr) (stream_handle : Option (Option Handle)) :
    Act κ (Int × Option (Option Handle)) := fun w =>
  match attributes with
  | none => .ret (-EINVAL, stream_handle) w
  | some attr =>
    match streamCreate env attr devices modifiers w with
    | .raise w1 =>
      if env.stdException w1.ext then .ret (-EINVAL, stream_handle) w1 else .raise w1
    | .fault => .fault
    | .ret none w1 => .ret (-EINVAL, stream_handle) w1
    | .ret (some h) w1 => (do
        let s : Option Handle := some h
        let status ← invoke env s .open
        if 0 ≠ status then
          let _ ← invoke env s .close
          delete env s
          return (status, stream_handle)
        if cb ≠ none then
          let _ ← invoke env s (.registerCallBack cb cookie)
        match stream_handle with
        | none => fun _ => .fault
        | some _ => return (status, some s)) w1

/-- Function `pal_stream_close(stream_handle)`. -/
def pal_stream_close {κ : Type} (env : Env κ) (stream_handle : Option Handle) : Act κ Int := do
  if stream_handle = none then
    return -EINVAL
  let s := stream_handle
  let status ← invoke env s .close
  if 0 ≠ status then
    return status
  delete env s
  return status

/-- Function `pal_stream_start(stream_handle)`. -/
def pal_stream_start {κ : Type} (env : Env κ) (stream_handle : Option Handle) : Act κ Int := do
  if stream_handle = none then
    return -EINVAL
  let s := stream_handle
  let status ← invoke env s .start
  if 0 ≠ status then
    return status
  let type ← getStreamType env s
  let dir ← getStreamDirection env s
  notify_concurrent_stream env type.2 dir.2 true
  return status

/-- Function `pal_stream_stop(stream_handle)`. -/
def pal_stream_stop {κ : Type} (env : Env κ) (stream_handle : Option Handle) : Act κ Int := do
  if stream_handle = none then
    return -EINVAL
  let s := stream_handle
  let type ← getStreamType env s
  let dir ← getStreamDirection env s
  let status ← invoke env s .stop
  if 0 ≠ status then
    notify_concurrent_stream env type.2 dir.2 false
    return status
  notify_concurrent_stream env type.2 dir.2 false
  return status

/-- Function `pal_stream_write(stream_handle, buf)`. -/
def pal_stream_write {κ : Type} (env : Env κ) (stream_handle : Option Handle) (buf : Ptr) :
    Act κ Int := do
  if stream_handle = none ∨ buf = none then
    return -EINVAL
  let s := stream_handle
  let status ← invoke env s (.write buf)
  if status < 0 then
    return status
  return status

/-- Function `pal_stream_read(stream_handle, buf)`. -/
def pal_stream_read {κ : Type} (env : Env κ) (stream_handle : Option Handle) (buf : Ptr) :
    Act κ Int := do
  if stream_handle = none ∨ buf = none then
    return -EINVAL
  let s := stream_handle
  let status ← invoke env s (.read buf)
  if status < 0 then
    return status
  return status

/-- Function `pal_stream_get_param(stream_handle, param_id, param_payload)`. -/
def pal_stream_get_param {κ : Type} (env : Env κ) (stream_handle : Option Handle)
    (param_id : Nat) (param_payload : Ptr) : Act κ Int := do
  if stream_handle = none then
    return -EINVAL
  let s := stream_handle
  let status ← invoke env s (.getParameters param_id param_payload)
  if 0 ≠ status then
    return status
  return status

/-- Function `pal_stream_set_param(stream_handle, param_id, param_payload)`. -/
def pal_stream_set_param {κ : Type} (env : Env κ) (stream_handle : Option Handle)
    (param_id : Nat) (param_payload : Ptr) : Act κ Int := do
  if stream_handle = none then
    return -EINVAL
  let s := stream_handle
  let status ← invoke env s (.setParameters param_id param_payload)
  if 0 ≠ status then
    return status
  return status

/-- Function `pal_stream_set_volume(stream_handle, volume)`. -/
def pal_stream_set_volume {κ : Type} (env : Env κ) (stream_handle : Option Handle)
    (volume : Ptr) : Act κ Int := do
  if stream_handle = none ∨ volume = none then
    return -EINVAL
  let s := stream_handle
  let status ← invoke env s (.setVolume volume)
  if 0 ≠ status then
    return status
  return status

/-- Function `pal_stream_set_mute(stream_handle, state)`. -/
def pal_stream_set_mute {κ : Type} (env : Env κ) (stream_handle : Option Handle)
    (state : Bool) : Act κ Int := do
  if stream_handle = none then
    return -EINVAL
  let s := stream_handle
  let status ← invoke env s (.setMute state)
  if 0 ≠ status then
    return status
  return status

/-- Function `pal_stream_pause(stream_handle)`. -/
def pal_stream_pause {κ : Type} (env : Env κ) (stream_handle : Option Handle) : Act κ Int := do
  if stream_handle = none then
    return -EINVAL
  let s := stream_handle
  let status ← invoke env s .setPause
  if 0 ≠ status then
    return status
  return status

/-- Function `pal_stream_resume(stream_handle)`. -/
def pal_stream_resume {κ : Type} (env : Env κ) (stream_handle : Option Handle) : Act κ Int := do
  if stream_handle = none then
    return -EINVAL
  let s := stream_handle
  let status ← invoke env s .setResume
  if 0 ≠ status then
    return status
  return status

/-- Function `pal_stream_drain(stream_handle, type)`. -/
def pal_stream_drain {κ : Type} (env : Env κ) (stream_handle : Option Handle) (type : Nat) :
    Act κ Int := do
  if stream_handle = none then
    return -EINVAL
  let s := stream_handle
  let status ← invoke env s (.drain type)
  if 0 ≠ status then
    return status
  return status

/-- Function `pal_stream_flush(stream_handle)`. -/
def pal_stream_flush {κ : Type} (env : Env κ) (stream_handle : Option Handle) : Act κ Int := do
  if stream_handle = none then
    return -EINVAL
  let s := stream_handle
  let status ← invoke env s .flush
  if 0 ≠ status then
    return status
  return status

/-- Function `pal_stream_set_buffer_size(stream_handle, in_buf_size, in_buf_count,
out_buf_size, out_buf_count)`. -/
def pal_stream_set_buffer_size {κ : Type} (env : Env κ) (stream_handle : Option Handle)
    (in_buf_size : Ptr) (in_buf_count : Nat) (out_buf_size : Ptr) (out_buf_count : Nat) :
    Act κ Int := do
  if stream_handle = none then
    return -EINVAL
  let s := stream_handle
  let status ← invoke env s (.setBufInfo in_buf_size in_buf_count out_buf_size out_buf_count)
  if 0 ≠ status then
    return status
  return status

/-- Function `pal_get_timestamp(stream_handle, stime)`. -/
def pal_get_timestamp {κ : Type} (env : Env κ) (stream_handle : Option Handle) (stime : Ptr) :
    Act κ Int := do
  if stream_handle = none then
    return -EINVAL
  let s := stream_handle
  let status ← invoke env s (.getTimestamp stime)
  if 0 ≠ status then
    return status
  return status

/-- Function `pal_add_remove_effect(stream_handle, effect, enable)`.  The local `s` is
still `NULL` when `getStreamType` is called on it; it is assigned from the
handle only inside the `PAL_STREAM_VOIP_TX` branch. -/
def pal_add_remove_effect {κ : Type} (env : Env κ) (stream_handle : Option Handle)
    (effect : Nat) (enable : Bool) : Act κ Int := do
  let mut s : Option Handle := none
  let mut status : Int := EINVAL
  if stream_handle = none then
    status := -EINVAL
    return status
  let r ← getStreamType env s
  status := r.1
  let type := r.2
  if 0 ≠ status then
    return status
  if env.PAL_STREAM_VOIP_TX = type then
    s := stream_handle
    status ← invoke env s (.addRemoveEffect effect enable)
    if 0 ≠ status then
      return status
  return status

/-- The `for` loop of `pal_stream_set_device` from index `i` on: `done` holds
`devices[0..i)` as left by earlier iterations, the list argument `devices[i..n)`.
The result is `inl status` when the loop body returns from the function, and
`inr devices` (the array after the loop) when the loop runs to its end. -/
def set_device_loop {κ : Type} (env : Env κ) (rm : Bool) (sattr : pal_stream_attributes)
    (devinfo : pal_device_info) (done : List pal_device) :
    List pal_device → Act κ (Int ⊕ List pal_device)
  | [] => pure (.inr done)
  | d :: rest => do
    let devinfo ← rmGetDeviceInfo env rm d.id sattr.type devinfo
    if devinfo.channels = 0 ∨ devinfo.channels > devinfo.max_channels then
      return .inl (-EINVAL)
    let r ← rmGetDeviceConfig env rm d sattr devinfo.channels
    let status := r.1
    if status ≠ 0 then
      return .inl status
    set_device_loop env rm sattr devinfo (done ++ [r.2]) rest

/-- Function `pal_stream_set_device(stream_handle, no_of_devices, devices)`; the counted
array is `none` for a null pointer, else the list of its `no_of_devices`
elements, and `devinfo = {}` is the all-zero record. -/
def pal_stream_set_device {κ : Type} (env : Env κ) (stream_handle : Option Handle)
    (devices : Option (List pal_device)) : Act κ Int := do
  let mut status : Int := -EINVAL
  let devinfo : pal_device_info := ⟨0, 0⟩
  if stream_handle = none then
    status := -EINVAL
    return status
  match devices with
  | none =>
    status := -EINVAL
    return status
  | some devs =>
    let rm ← getInstance env
    if !rm then
      return status
    let s := stream_handle
    let sattr ← getStreamAttributes env s
    if sattr.2.type = env.PAL_STREAM_VOICE_UI then
      return status
    match ← set_device_loop env rm sattr.2 devinfo [] devs with
    | .inl st => return st
    | .inr devs1 =>
      status ← invoke env s (.switchDevice s devs1)
      if 0 ≠ status then
        return status
      return status

/-- Function `pal_set_param(param_id, param_payload, payload_size)`. -/
def pal_set_param {κ : Type} (env : Env κ) (param_id : Nat) (param_payload : Ptr)
    (payload_size : Nat) : Act κ Int := do
  let mut status : Int := 0
  let rm ← getInstance env
  if rm then
    status ← rmInvoke env rm (.setParameter param_id param_payload payload_size)
  else
    status := -EINVAL
  return status

/-- Function `pal_get_param(param_id, param_payload, payload_size, query)`. -/
def pal_get_param {κ : Type} (env : Env κ) (param_id : Nat) (param_payload : Ptr)
    (payload_size : Ptr) (query : Ptr) : Act κ Int := do
  let mut status : Int := 0
  let rm ← getInstance env
  if rm then
    status ← rmInvoke env rm (.getParameter param_id param_payload payload_size query)
  else
    status := -EINVAL
  return status

/-- Function `pal_stream_get_mmap_position(stream_handle, position)`. -/
def pal_stream_get_mmap_position {κ : Type} (env : Env κ) (stream_handle : Option Handle)
    (position : Ptr) : Act κ Int := do
  if stream_handle = none then
    return -EINVAL
  let s := stream_handle
  let status ← invoke env s (.GetMmapPosition position)
  if 0 ≠ status then
    return status
  return status

/-- Function `pal_stream_create_mmap_buffer(stream_handle, min_size_frames, info)`. -/
def pal_stream_create_mmap_buffer {κ : Type} (env : Env κ) (stream_handle : Option Handle)
    (min_size_frames : Int) (info : Ptr) : Act κ Int := do
  if stream_handle = none then
    return -EINVAL
  let s := stream_handle
  let status ← invoke env s (.createMmapBuffer min_size_frames info)
  if 0 ≠ status then
    return status
  return status

/-- Function `pal_register_global_callback(cb, cookie)`. -/
def pal_register_global_callback {κ : Type} (env : Env κ) (cb cookie : Ptr) : Act κ Int := do
  let rm ← getInstance env
  if cb ≠ none then
    rmSetGlobalCb rm cb cookie
  return 0

/-- Function `pal_gef_rw_param(param_id, param_payload, payload_size, pal_device_id,
pal_stream_type, dir)`. -/
def pal_gef_rw_param {κ : Type} (env : Env κ) (param_id : Nat) (param_payload : Ptr)
    (payload_size : Nat) (pal_device_id : pal_device_id_t) (pal_stream_type : pal_stream_type_t)
    (dir : Nat) : Act κ Int := do
  let mut status : Int := 0
  let rm ← getInstance env
  if rm then
    if env.GEF_PARAM_WRITE = dir then
      status ← rmInvoke env rm
        (.setParameterDev param_id param_payload payload_size pal_device_id pal_stream_type)
    else
      status ← rmInvoke env rm
        (.getParameterDev param_id param_payload payload_size pal_device_id pal_stream_type)
  else
    status := -EINVAL
  return status

/-! ## Observations on traces, and a concrete collaborator -/

/-- A concrete collaborator over a call counter, to run the API on concrete
inputs.  `getInstance` does `g`.  Every stream method returns `-5` on stream
`13` and `0` on any other stream; a stream at address `h` has type `h % 20`
and direction `h % 3`.  Device `0` has no channels and device `9` has more
channels than its maximum; any other device has 2 of 2 channels, and
`getDeviceConfig` fails with `-19` on device `7` only.  What is thrown is a
`std::exception`. -/
def demoEnv (g : GetInst) : Env Nat where
  PAL_STREAM_VOICE_UI := 17
  PAL_STREAM_VOIP_TX := 6
  GEF_PARAM_WRITE := 1
  getInstance := fun k => (g, k + 1)
  deinit := fun k => k + 1
  rmCall := fun k _ => (0, k + 1)
  getDeviceInfo := fun _ id _ _ =>
    if id = 0 then ⟨0, 2⟩ else if id = 9 then ⟨3, 2⟩ else ⟨2, 2⟩
  getDeviceConfig := fun k dev _ channels =>
    ((if dev.id = 7 then -19 else 0, { dev with config := channels.toNat }), k + 1)
  create := fun k _ _ _ => (.ptr (some (k + 100)), k + 1)
  streamCall := fun k h _ => (if h = 13 then -5 else 0, k + 1)
  destroy := fun k _ => k + 1
  getStreamType := fun _ h => (0, h % 20)
  getStreamDirection := fun _ h => (0, h % 3)
  getStreamAttributes := fun _ h => (0, ⟨h % 20, h % 3, 0⟩)
  stdException := fun _ => true

/-- The world before any call: no stream, no callback, empty trace. -/
def world0 : World Nat := ⟨0, [], none, none, []⟩

/-- A device is invalid for a stream with attributes `sattr`, seen from
collaborator state `k` with `devinfo` holding `info`: the channel count looked
up is 0 or exceeds `max_channels`, or `getDeviceConfig` returns a non-zero
status. -/
def DeviceInvalid {κ : Type} (env : Env κ) (sattr : pal_stream_attributes) (d : pal_device)
    (k : κ) (info : pal_device_info) : Prop :=
  (env.getDeviceInfo k d.id sattr.type info).channels = 0 ∨
  (env.getDeviceInfo k d.id sattr.type info).channels
    > (env.getDeviceInfo k d.id sattr.type info).max_channels ∨
  (env.getDeviceConfig k d sattr (env.getDeviceInfo k d.id sattr.type info).channels).1.1 ≠ 0

/-- A sequence of `pal_register_global_callback(cb, cookie)` calls, oldest
first; the result is the list of the statuses returned. -/
def register_all {κ : Type} (env : Env κ) : List (Ptr × Ptr) → Act κ (List Int)
  | [] => pure []
  | c :: rest => do
    let r ← pal_register_global_callback env c.1 c.2
    let rs ← register_all env rest
    return r :: rs

/-- The contract of a non-empty sequence of registrations, as C10 words it:
every call returns 0 and the stored `(globalCb, cookie)` is the pair passed in
the last call. -/
def RegistrationContract {κ : Type} (env : Env κ) (calls : List (Ptr × Ptr)) (w : World κ) :
    Prop :=
  ∃ w1, register_all env calls w = .ret (List.replicate calls.length 0) w1 ∧
    some (w1.globalCb, w1.cookie) = calls.getLast?

/-- The collaborator state and the content of `devinfo` with which the
validation loop of `pal_stream_set_device`, started from `k` and `info`, comes
to the device that follows the devices `pre` (all of which passed). -/
def loopState {κ : Type} (env : Env κ) (sattr : pal_stream_attributes) :
    κ → pal_device_info → List pal_device → κ × pal_device_info
  | k, info, [] => (k, info)
  | k, info, d :: rest =>
    loopState env sattr
      (env.getDeviceConfig k d sattr (env.getDeviceInfo k d.id sattr.type info).channels).2
      (env.getDeviceInfo k d.id sattr.type info) rest

/-- The collaborator `demoEnv` with a resource manager that knows the
parameter ids below 10 only: a set or get of any other id fails with `-22`. -/
def paramEnv : Env Nat :=
  { demoEnv .inst with
    rmCall := fun k m =>
      (match m with
        | .setParameter id _ _ => if id < 10 then 0 else -22
        | .getParameter id _ _ _ => if id < 10 then 0 else -22
        | .setParameterDev id _ _ _ _ => if id < 10 then 0 else -22
        | .getParameterDev id _ _ _ _ => if id < 10 then 0 else -22
        | _ => 0, k + 1) }

/-- A world with the two live streams `5` and `13`. -/
def world2 : World Nat := ⟨0, [5, 13], none, none, []⟩

/-- The devices `pre` all pass the validation loop of `pal_stream_set_device`
started from collaborator state `k` with `devinfo` holding `info`: none is
invalid when the loop comes to it. -/
def AllPass {κ : Type} (env : Env κ) (sattr : pal_stream_attributes) :
    κ → pal_device_info → List pal_device → Prop
  | _, _, [] => True
  | k, info, d :: rest =>
    ¬ DeviceInvalid env sattr d k info ∧
    AllPass env sattr
      (env.getDeviceConfig k d sattr (env.getDeviceInfo k d.id sattr.type info).channels).2
      (env.getDeviceInfo k d.id sattr.type info) rest

/-- The calls that the validation loop of `pal_stream_set_device`, started
from `k` and `info`, makes for devices `pre` that all pass: for each device its
`getDeviceInfo`, then its `getDeviceConfig` with the channel count looked up. -/
def loopTrace {κ : Type} (env : Env κ) (sattr : pal_stream_attributes) :
    κ → pal_device_info → List pal_device → List Event
  | _, _, [] => []
  | k, info, d :: rest =>
    [.rm (.getDeviceInfo d.id sattr.type),
      .rm (.getDeviceConfig d sattr (env.getDeviceInfo k d.id sattr.type info).channels)] ++
    loopTrace env sattr
      (env.getDeviceConfig k d sattr (env.getDeviceInfo k d.id sattr.type info).channels).2
      (env.getDeviceInfo k d.id sattr.type info) rest

/-! ## The monad, pointwise -/

@[simp] theorem Act.bind_apply {κ α β : Type} (x : Act κ α) (f : α → Act κ β) (w : World κ) :
    (x >>= f) w = match x w with
      | .ret v w1 => f v w1
      | .raise w1 => .raise w1
      | .fault => .fault := rfl

@[simp] theorem Act.pure_apply {κ α : Type} (v : α) (w : World κ) :
    (pure v : Act κ α) w = .ret v w := rfl

/-- Claim C7. Each API operation that takes a stream handle, called with a null
handle, returns `-EINVAL` and leaves the world as it was: the trace gets no
entry (no `Stream` method, no `getInstance`, no resource-manager call), and no
state changes. -/
theorem null_handle_rejected {κ : Type} (env : Env κ) (w : World κ) :
    pal_stream_close env none w = .ret (-EINVAL) w ∧
    pal_stream_start env none w = .ret (-EINVAL) w ∧
    pal_stream_stop env none w = .ret (-EINVAL) w ∧
    (∀ buf, pal_stream_read env none buf w = .ret (-EINVAL) w) ∧
    (∀ buf, pal_stream_write env none buf w = .ret (-EINVAL) w) ∧
    (∀ id payload, pal_stream_get_param env none id payload w = .ret (-EINVAL) w) ∧
    (∀ id payload, pal_stream_set_param env none id payload w = .ret (-EINVAL) w) ∧
    (∀ volume, pal_stream_set_volume env none volume w = .ret (-EINVAL) w) ∧
    (∀ state, pal_stream_set_mute env none state w = .ret (-EINVAL) w) ∧
    pal_stream_pause env none w = .ret (-EINVAL) w ∧
    pal_stream_resume env none w = .ret (-EINVAL) w ∧
    (∀ type, pal_stream_drain env none type w = .ret (-EINVAL) w) ∧
    pal_stream_flush env none w = .ret (-EINVAL) w ∧
    (∀ ibs ibc obs obc, pal_stream_set_buffer_size env none ibs ibc obs obc w
      = .ret (-EINVAL) w) ∧
    (∀ stime, pal_get_timestamp env none stime w = .ret (-EINVAL) w) ∧
    (∀ effect enable, pal_add_remove_effect env none effect enable w = .ret (-EINVAL) w) ∧
    (∀ devices, pal_stream_set_device env none devices w = .ret (-EINVAL) w) ∧
    (∀ position, pal_stream_get_mmap_position env none position w = .ret (-EINVAL) w) ∧
    (∀ frames info, pal_stream_create_mmap_buffer env none frames info w
      = .ret (-EINVAL) w) := by
  refine ⟨rfl, rfl, rfl, fun _ => ?_, fun _ => ?_, fun _ _ => rfl, fun _ _ => rfl, fun _ => ?_,
    fun _ => rfl, rfl, rfl, fun _ => rfl, rfl, fun _ _ _ _ => rfl, fun _ => rfl,
    fun _ _ => rfl, fun _ => rfl, fun _ => rfl, fun _ _ => rfl⟩
  · simp [pal_stream_read]
  · simp [pal_stream_write]
  · simp [pal_stream_set_volume]

/-- Claim C9. With a null attributes pointer `pal_stream_open` returns `-EINVAL`,
whatever the other arguments: nothing is called (neither `Stream::create` nor
`Stream::open`), no stream comes into existence, and the output handle cell
is returned as it was passed. -/
theorem pal_stream_open_null_attributes {κ : Type} (env : Env κ) (w : World κ)
    (devices : Option (List pal_device)) (modifiers : Option (List modifier_kv))
    (cb cookie : Ptr) (stream_handle : Option (Option Handle)) :
    pal_stream_open env none devices modifiers cb cookie stream_handle w
      = .ret (-EINVAL, stream_handle) w := rfl

/-- One iteration of the validation loop of `pal_stream_set_device`, on
device `d` with looked-up channel count `c` and limit `m`.  If `c = 0` or
`c > m`, the function returns `-EINVAL` and the iteration has called
`getDeviceInfo` only, not `getDeviceConfig`.  If `1 ≤ c ≤ m` (so also for
`c = m`), the device passes the check and `getDeviceConfig(d, sattr, c)` is
called next; the function then returns its status if non-zero, and the loop
goes on to the next device otherwise. -/
theorem set_device_channel_check {κ : Type} (env : Env κ) (sattr : pal_stream_attributes)
    (devinfo : pal_device_info) (done rest : List pal_device) (d : pal_device) (w : World κ) :
    let info := env.getDeviceInfo w.ext d.id sattr.type devinfo
    let cfg := env.getDeviceConfig w.ext d sattr info.channels
    let w2 : World κ := { w with
      ext := cfg.2
      trace := w.trace ++ [.rm (.getDeviceInfo d.id sattr.type),
        .rm (.getDeviceConfig d sattr info.channels)] }
    (info.channels = 0 ∨ info.channels > info.max_channels →
      set_device_loop env true sattr devinfo done (d :: rest) w
        = .ret (.inl (-EINVAL))
            { w with trace := w.trace ++ [.rm (.getDeviceInfo d.id sattr.type)] }) ∧
    (1 ≤ info.channels ∧ info.channels ≤ info.max_channels →
      set_device_loop env true sattr devinfo done (d :: rest) w
        = if cfg.1.1 ≠ 0 then .ret (.inl cfg.1.1) w2
          else set_device_loop env true sattr info (done ++ [cfg.1.2]) rest w2) := by
  intro info cfg w2
  constructor
  · intro hbad
    have hb : (env.getDeviceInfo w.ext d.id sattr.type devinfo).channels = 0 ∨
        (env.getDeviceInfo w.ext d.id sattr.type devinfo).max_channels
          < (env.getDeviceInfo w.ext d.id sattr.type devinfo).channels := hbad
    simp [set_device_loop, rmGetDeviceInfo, World.log, hb]
  · intro hok
    have hb : ¬ ((env.getDeviceInfo w.ext d.id sattr.type devinfo).channels = 0 ∨
        (env.getDeviceInfo w.ext d.id sattr.type devinfo).max_channels
          < (env.getDeviceInfo w.ext d.id sattr.type devinfo).channels) := by
      have h1 : 1 ≤ (env.getDeviceInfo w.ext d.id sattr.type devinfo).channels := hok.1
      have h2 : (env.getDeviceInfo w.ext d.id sattr.type devinfo).channels
          ≤ (env.getDeviceInfo w.ext d.id sattr.type devinfo).max_channels := hok.2
      omega
    simp [set_device_loop, rmGetDeviceInfo, rmGetDeviceConfig, World.log, hb, info, cfg, w2]
    split <;> simp

/-- The loop on one device, run: device `9` has 3 channels of at most 2 and is rejected
before `getDeviceConfig`; device `2` has 2 channels of at most 2 (the boundary)
and `getDeviceConfig` is called for it with channel hint 2. -/
theorem set_device_channel_check_witness :
    set_device_loop (demoEnv .inst) true ⟨1, 0, 0⟩ ⟨0, 0⟩ [] [⟨9, 0⟩] world0
      = .ret (.inl (-22)) { world0 with trace := [.rm (.getDeviceInfo 9 1)] } ∧
    set_device_loop (demoEnv .inst) true ⟨1, 0, 0⟩ ⟨0, 0⟩ [] [⟨2, 0⟩] world0
      = .ret (.inr [⟨2, 2⟩]) { world0 with
          ext := 1
          trace := [.rm (.getDeviceInfo 2 1), .rm (.getDeviceConfig ⟨2, 0⟩ ⟨1, 0, 0⟩ 2)] } :=
  ⟨(set_device_channel_check (demoEnv .inst) ⟨1, 0, 0⟩ ⟨0, 0⟩ [] [] ⟨9, 0⟩ world0).1
      (Or.inr (by decide)),
    (set_device_channel_check (demoEnv .inst) ⟨1, 0, 0⟩ ⟨0, 0⟩ [] [] ⟨2, 0⟩ world0).2
      ⟨by decide, by decide⟩⟩

/-- The validation loop on `pre ++ d :: post`, where `d` is invalid when the
loop comes to it: the function returns a non-zero status, having called the
resource manager only. -/
theorem set_device_loop_invalid {κ : Type} (env : Env κ) (sattr : pal_stream_attributes)
    (d : pal_device) (post : List pal_device) :
    ∀ (pre : List pal_device) (devinfo : pal_device_info) (done : List pal_device)
      (w : World κ),
    DeviceInvalid env sattr d (loopState env sattr w.ext devinfo pre).1
      (loopState env sattr w.ext devinfo pre).2 →
    ∃ st w1 evs, set_device_loop env true sattr devinfo done (pre ++ d :: post) w
        = .ret (.inl st) w1 ∧
      st ≠ 0 ∧ w1.trace = w.trace ++ evs ∧ ∀ e ∈ evs, ∃ m, e = Event.rm m := by
  -- one iteration on a device `p` followed by `rest`, by the outcome of its checks
  have step : ∀ (p : pal_device) (rest : List pal_device) (devinfo : pal_device_info)
      (done : List pal_device) (w : World κ),
      (∃ st, set_device_loop env true sattr devinfo done (p :: rest) w
          = .ret (.inl st) { w with
              trace := w.trace ++ [.rm (.getDeviceInfo p.id sattr.type)] } ∧ st ≠ 0 ∧
        ((env.getDeviceInfo w.ext p.id sattr.type devinfo).channels = 0 ∨
          (env.getDeviceInfo w.ext p.id sattr.type devinfo).channels
            > (env.getDeviceInfo w.ext p.id sattr.type devinfo).max_channels)) ∨
      (∃ st, set_device_loop env true sattr devinfo done (p :: rest) w
          = .ret (.inl st) { w with
              ext := (env.getDeviceConfig w.ext p sattr
                (env.getDeviceInfo w.ext p.id sattr.type devinfo).channels).2
              trace := w.trace ++ [.rm (.getDeviceInfo p.id sattr.type),
                .rm (.getDeviceConfig p sattr
                  (env.getDeviceInfo w.ext p.id sattr.type devinfo).channels)] } ∧ st ≠ 0 ∧
        (env.getDeviceConfig w.ext p sattr
          (env.getDeviceInfo w.ext p.id sattr.type devinfo).channels).1.1 ≠ 0) ∨
      (set_device_loop env true sattr devinfo done (p :: rest) w
        = set_device_loop env true sattr (env.getDeviceInfo w.ext p.id sattr.type devinfo)
            (done ++ [(env.getDeviceConfig w.ext p sattr
              (env.getDeviceInfo w.ext p.id sattr.type devinfo).channels).1.2]) rest
            { w with
              ext := (env.getDeviceConfig w.ext p sattr
                (env.getDeviceInfo w.ext p.id sattr.type devinfo).channels).2
              trace := w.trace ++ [.rm (.getDeviceInfo p.id sattr.type),
                .rm (.getDeviceConfig p sattr
                  (env.getDeviceInfo w.ext p.id sattr.type devinfo).channels)] } ∧
        ¬ DeviceInvalid env sattr p w.ext devinfo) := by
    intro p rest devinfo done w
    by_cases hchk : (env.getDeviceInfo w.ext p.id sattr.type devinfo).channels = 0 ∨
        (env.getDeviceInfo w.ext p.id sattr.type devinfo).max_channels
          < (env.getDeviceInfo w.ext p.id sattr.type devinfo).channels
    · refine Or.inl ⟨-EINVAL, ?_, by decide, hchk⟩
      simp [set_device_loop, rmGetDeviceInfo, World.log, hchk]
    · by_cases hcfg : (env.getDeviceConfig w.ext p sattr
          (env.getDeviceInfo w.ext p.id sattr.type devinfo).channels).1.1 = 0
      · refine Or.inr (Or.inr ⟨?_, ?_⟩)
        · simp [set_device_loop, rmGetDeviceInfo, rmGetDeviceConfig, World.log, hchk, hcfg]
        · rintro (h | h | h)
          · exact hchk (Or.inl h)
          · exact hchk (Or.inr h)
          · exact h hcfg
      · refine Or.inr (Or.inl ⟨_, ?_, hcfg, hcfg⟩)
        simp [set_device_loop, rmGetDeviceInfo, rmGetDeviceConfig, World.log, hchk, hcfg]
  intro pre
  induction pre with
  | nil =>
    intro devinfo done w hbad
    rcases step d post devinfo done w with ⟨st, hrun, hst, -⟩ | ⟨st, hrun, hst, -⟩ | ⟨-, hok⟩
    · exact ⟨st, _, [.rm (.getDeviceInfo d.id sattr.type)], hrun, hst, rfl, by simp⟩
    · exact ⟨st, _, [.rm (.getDeviceInfo d.id sattr.type), .rm (.getDeviceConfig d sattr
        (env.getDeviceInfo w.ext d.id sattr.type devinfo).channels)], hrun, hst, rfl, by simp⟩
    · exact absurd hbad hok
  | cons p pre ih =>
    intro devinfo done w hbad
    rcases step p (pre ++ d :: post) devinfo done w with
      ⟨st, hrun, hst, -⟩ | ⟨st, hrun, hst, -⟩ | ⟨hrun, -⟩
    · exact ⟨st, _, [.rm (.getDeviceInfo p.id sattr.type)], hrun, hst, rfl, by simp⟩
    · exact ⟨st, _, [.rm (.getDeviceInfo p.id sattr.type), .rm (.getDeviceConfig p sattr
        (env.getDeviceInfo w.ext p.id sattr.type devinfo).channels)], hrun, hst, rfl, by simp⟩
    · obtain ⟨st, w1, evs, hrun1, hst, htr, hev⟩ := ih
        (env.getDeviceInfo w.ext p.id sattr.type devinfo)
        (done ++ [(env.getDeviceConfig w.ext p sattr
          (env.getDeviceInfo w.ext p.id sattr.type devinfo).channels).1.2])
        { w with
          ext := (env.getDeviceConfig w.ext p sattr
            (env.getDeviceInfo w.ext p.id sattr.type devinfo).channels).2
          trace := w.trace ++ [.rm (.getDeviceInfo p.id sattr.type),
            .rm (.getDeviceConfig p sattr
              (env.getDeviceInfo w.ext p.id sattr.type devinfo).channels)] } hbad
      refine ⟨st, w1, [.rm (.getDeviceInfo p.id sattr.type), .rm (.getDeviceConfig p sattr
        (env.getDeviceInfo w.ext p.id sattr.type devinfo).channels)] ++ evs, ?_, hst, ?_, ?_⟩
      · rw [List.cons_append, hrun, hrun1]
      · simpa using htr
      · intro e he
        rcases List.mem_append.mp he with h | h
        · simp at h
          rcases h with h | h <;> exact ⟨_, h⟩
        · exact hev e h

/-- Claim C4. For a stream that is not voice-UI and a device list
`pre ++ d :: post` in which the device `d`, at any position, is invalid when
the validation comes to it (in particular a device that is invalid whatever
the state), `pal_stream_set_device` returns a non-zero status (provided
`getInstance` does not throw) and calls nothing but `getInstance`, the
attribute getter of the stream and resource-manager methods:
`Stream::switchDevice` is not called on any stream. -/
theorem pal_stream_set_device_invalid_device {κ : Type} (env : Env κ) (w : World κ)
    (h : Handle) (pre post : List pal_device) (d : pal_device)
    (hinst : (env.getInstance w.ext).1 ≠ GetInst.raised)
    (hui : (env.getStreamAttributes (env.getInstance w.ext).2 h).2.type
      ≠ env.PAL_STREAM_VOICE_UI)
    (hbad : DeviceInvalid env (env.getStreamAttributes (env.getInstance w.ext).2 h).2 d
      (loopState env (env.getStreamAttributes (env.getInstance w.ext).2 h).2
        (env.getInstance w.ext).2 ⟨0, 0⟩ pre).1
      (loopState env (env.getStreamAttributes (env.getInstance w.ext).2 h).2
        (env.getInstance w.ext).2 ⟨0, 0⟩ pre).2) :
    ∃ st w1 evs, pal_stream_set_device env (some h) (some (pre ++ d :: post)) w = .ret st w1 ∧
      st ≠ 0 ∧ w1.trace = w.trace ++ evs ∧
      (∀ e ∈ evs, e = .getInstance ∨ e = .stream h .getStreamAttributes ∨ ∃ m, e = Event.rm m) ∧
      (∀ h1 s ds, Event.stream h1 (.switchDevice s ds) ∉ evs) := by
  have key : ∃ st w1 evs,
      pal_stream_set_device env (some h) (some (pre ++ d :: post)) w = .ret st w1 ∧
      st ≠ 0 ∧ w1.trace = w.trace ++ evs ∧
      (∀ e ∈ evs, e = .getInstance ∨ e = .stream h .getStreamAttributes ∨
        ∃ m, e = Event.rm m) := by
    cases hg : (env.getInstance w.ext).1 with
    | raised => exact absurd hg hinst
    | null =>
      refine ⟨-EINVAL, { w with
        ext := (env.getInstance w.ext).2
        trace := w.trace ++ [.getInstance] }, [.getInstance], ?_, by decide, rfl, ?_⟩
      · simp [pal_stream_set_device, getInstance, hg, World.log]
      · simp
    | inst =>
      obtain ⟨st, w1, evs, hrun, hst, htr, hev⟩ := set_device_loop_invalid env
        (env.getStreamAttributes (env.getInstance w.ext).2 h).2 d post pre ⟨0, 0⟩ []
        { w with
          ext := (env.getInstance w.ext).2
          trace := w.trace ++ [.getInstance, .stream h .getStreamAttributes] } hbad
      refine ⟨st, w1, [.getInstance, .stream h .getStreamAttributes] ++ evs, ?_, hst, ?_, ?_⟩
      · simp [pal_stream_set_device, getInstance, hg, World.log, getStreamAttributes, hui]
        rw [hrun]
        rfl
      · simpa using htr
      · intro e he
        rcases List.mem_append.mp he with h1 | h1
        · simp at h1
          rcases h1 with h1 | h1
          · exact Or.inl h1
          · exact Or.inr (Or.inl h1)
        · exact Or.inr (Or.inr (hev e h1))
  obtain ⟨st, w1, evs, hrun, hst, htr, hev⟩ := key
  refine ⟨st, w1, evs, hrun, hst, htr, hev, ?_⟩
  intro h1 s ds hmem
  rcases hev _ hmem with h2 | h2 | ⟨m, h2⟩
  · cases h2
  · cases h2
  · cases h2

/-- Witness of C4: stream `1` and the devices `2, 0, 3`, where device `0`, in
the middle, has no channels. -/
theorem pal_stream_set_device_invalid_device_witness :
    ((demoEnv .inst).getInstance world0.ext).1 ≠ GetInst.raised ∧
    ((demoEnv .inst).getStreamAttributes ((demoEnv .inst).getInstance world0.ext).2 1).2.type
      ≠ (demoEnv .inst).PAL_STREAM_VOICE_UI ∧
    DeviceInvalid (demoEnv .inst) ⟨1, 1, 0⟩ ⟨0, 0⟩
      (loopState (demoEnv .inst) ⟨1, 1, 0⟩ 1 ⟨0, 0⟩ [⟨2, 0⟩]).1
      (loopState (demoEnv .inst) ⟨1, 1, 0⟩ 1 ⟨0, 0⟩ [⟨2, 0⟩]).2 ∧
    ∃ st w1 evs, pal_stream_set_device (demoEnv .inst) (some 1)
        (some [⟨2, 0⟩, ⟨0, 0⟩, ⟨3, 0⟩]) world0 = .ret st w1 ∧
      st ≠ 0 ∧ w1.trace = world0.trace ++ evs ∧
      (∀ e ∈ evs, e = .getInstance ∨ e = .stream 1 .getStreamAttributes ∨ ∃ m, e = Event.rm m) ∧
      (∀ h1 s ds, Event.stream h1 (.switchDevice s ds) ∉ evs) :=
  ⟨by decide, by decide, Or.inl rfl,
    pal_stream_set_device_invalid_device (demoEnv .inst) world0 1 [⟨2, 0⟩] [⟨3, 0⟩] ⟨0, 0⟩
      (by decide) (by decide) (Or.inl rfl)⟩

/-- For a voice-UI stream, with a device list and the resource manager
available, `pal_stream_set_device` calls `getInstance` and the attribute getter
only, and returns the `-EINVAL` that `status` was initialised with. -/
theorem set_device_voice_ui_status {κ : Type} (env : Env κ) (w : World κ) (h : Handle)
    (devs : List pal_device) (hinst : (env.getInstance w.ext).1 = GetInst.inst)
    (hui : (env.getStreamAttributes (env.getInstance w.ext).2 h).2.type
      = env.PAL_STREAM_VOICE_UI) :
    pal_stream_set_device env (some h) (some devs) w
      = .ret (-EINVAL) { w with
          ext := (env.getInstance w.ext).2
          trace := w.trace ++ [.getInstance, .stream h .getStreamAttributes] } := by
  simp [pal_stream_set_device, getInstance, hinst, World.log, getStreamAttributes, hui]

/-- Claim C5, the code at the failing input.  Stream `17` is a voice-UI stream;
`pal_stream_set_device` on it with the one-device list `[1]` calls neither
`getDeviceInfo`, `getDeviceConfig` nor `switchDevice`, but returns `-22`
(`-EINVAL`), not 0. -/
theorem pal_stream_set_device_voice_ui_returns_einval :
    pal_stream_set_device (demoEnv .inst) (some 17) (some [⟨1, 0⟩]) world0
      = .ret (-22) { world0 with
          ext := 1
          trace := [.getInstance, .stream 17 .getStreamAttributes] } :=
  set_device_voice_ui_status (demoEnv .inst) world0 17 [⟨1, 0⟩] rfl rfl

/-- One registration with the resource manager available returns 0 and stores
the pair passed if its callback is non-null, else leaves the stored pair. -/
theorem register_step {κ : Type} (env : Env κ) (w : World κ) (cb cookie : Ptr)
    (havail : ∀ k, (env.getInstance k).1 = GetInst.inst) :
    pal_register_global_callback env cb cookie w
      = .ret 0 { w with
          ext := (env.getInstance w.ext).2
          trace := w.trace ++ [.getInstance]
          globalCb := if cb = none then w.globalCb else cb
          cookie := if cb = none then w.cookie else cookie } := by
  by_cases hcb : cb = none
  · simp [pal_register_global_callback, getInstance, havail, World.log, hcb]
  · simp [pal_register_global_callback, getInstance, havail, World.log, hcb, rmSetGlobalCb]

/-- Claim C10, as stated, fails.  After registering `(cb 1, cookie 10)` and then
calling `pal_register_global_callback(NULL, cookie 20)`, the stored pair is
still `(cb 1, cookie 10)`, not the pair of the most recent call. -/
theorem registration_contract_fails_on_null_callback :
    ¬ RegistrationContract (demoEnv .inst) [(some 1, some 10), (none, some 20)] world0 := by
  rintro ⟨w1, hrun, hlast⟩
  simp [register_all, register_step (demoEnv .inst) _ _ _ (fun _ => rfl), world0] at hrun
  obtain ⟨-, rfl⟩ := hrun
  simp at hlast

/-- Claim C10, amended.  With the resource manager available, every call of a
sequence of `pal_register_global_callback` calls returns 0, and the stored
`(globalCb, cookie)` afterwards is the pair passed in the most recent call
whose callback is non-null (the pair stored before, if there is no such call):
a registration with a non-null callback replaces the previous one, and a call
with a null callback changes nothing. -/
theorem registration_keeps_last_non_null {κ : Type} (env : Env κ)
    (havail : ∀ k, (env.getInstance k).1 = GetInst.inst) (calls : List (Ptr × Ptr))
    (w : World κ) :
    ∃ w1, register_all env calls w = .ret (List.replicate calls.length 0) w1 ∧
      (w1.globalCb, w1.cookie)
        = ((calls.filter (fun c => c.1 ≠ none)).getLast?).getD (w.globalCb, w.cookie) := by
  induction calls generalizing w with
  | nil => exact ⟨w, rfl, rfl⟩
  | cons c rest ih =>
    obtain ⟨w1, hrun, hpair⟩ := ih { w with
      ext := (env.getInstance w.ext).2
      trace := w.trace ++ [.getInstance]
      globalCb := if c.1 = none then w.globalCb else c.1
      cookie := if c.1 = none then w.cookie else c.2 }
    refine ⟨w1, ?_, ?_⟩
    · simp [register_all, register_step env w c.1 c.2 havail, hrun, List.replicate_succ]
    · rw [hpair]
      by_cases hc : c.1 = none
      · simp [hc]
      · simp [hc, List.filter_cons, List.getLast?_cons]

/-- Witness of C10 amended: three calls, the last one with a null callback. -/
theorem registration_keeps_last_non_null_witness :
    (∀ k, ((demoEnv .inst).getInstance k).1 = GetInst.inst) ∧
    ∃ w1, register_all (demoEnv .inst) [(some 1, some 10), (some 2, none), (none, some 30)]
        world0 = .ret [0, 0, 0] w1 ∧
      (w1.globalCb, w1.cookie) = (some 2, none) :=
  ⟨fun _ => rfl,
    registration_keeps_last_non_null (demoEnv .inst) (fun _ => rfl)
      [(some 1, some 10), (some 2, none), (none, some 30)] world0⟩

/-! ## C3: notification balance over sequences of calls -/

/-- Claim C11.  `pal_set_param`, `pal_get_param` and `pal_gef_rw_param` first ask
for the resource manager.  If the instance is absent (a null pointer) each
returns `-EINVAL` and calls nothing else.  If it is present each makes exactly
one `setParameter` / `getParameter` call (for `pal_gef_rw_param` the set when
`dir` is `GEF_PARAM_WRITE`, else the get) and returns the status of that call
unchanged. -/
theorem global_param_needs_resource_manager {κ : Type} (env : Env κ) (w : World κ)
    (param_id : Nat) (param_payload : Ptr) (payload_size : Nat) (size_ptr query : Ptr)
    (pal_device_id : pal_device_id_t) (pal_stream_type : pal_stream_type_t) (dir : Nat) :
    let k := (env.getInstance w.ext).2
    let absent : Outcome κ Int :=
      .ret (-EINVAL) { w with ext := k, trace := w.trace ++ [.getInstance] }
    let after (m : RmMethod) : Outcome κ Int :=
      .ret (env.rmCall k m).1
        { w with ext := (env.rmCall k m).2, trace := w.trace ++ [.getInstance, .rm m] }
    ((env.getInstance w.ext).1 = GetInst.null →
      pal_set_param env param_id param_payload payload_size w = absent ∧
      pal_get_param env param_id param_payload size_ptr query w = absent ∧
      pal_gef_rw_param env param_id param_payload payload_size pal_device_id pal_stream_type
        dir w = absent) ∧
    ((env.getInstance w.ext).1 = GetInst.inst →
      pal_set_param env param_id param_payload payload_size w
        = after (.setParameter param_id param_payload payload_size) ∧
      pal_get_param env param_id param_payload size_ptr query w
        = after (.getParameter param_id param_payload size_ptr query) ∧
      pal_gef_rw_param env param_id param_payload payload_size pal_device_id pal_stream_type
        dir w
        = after (if env.GEF_PARAM_WRITE = dir
            then .setParameterDev param_id param_payload payload_size pal_device_id
              pal_stream_type
            else .getParameterDev param_id param_payload payload_size pal_device_id
              pal_stream_type)) := by
  intro k absent after
  constructor
  · intro hg
    refine ⟨?_, ?_, ?_⟩ <;>
      simp [pal_set_param, pal_get_param, pal_gef_rw_param, getInstance, hg, World.log,
        absent, k]
  · intro hg
    refine ⟨?_, ?_, ?_⟩
    · simp [pal_set_param, getInstance, rmInvoke, hg, World.log, after, k]
    · simp [pal_get_param, getInstance, rmInvoke, hg, World.log, after, k]
    · by_cases hd : env.GEF_PARAM_WRITE = dir <;>
        simp [pal_gef_rw_param, getInstance, rmInvoke, hg, World.log, after, k, hd]

/-- Witness of C11: without an instance `pal_set_param` returns `-22` after
`getInstance` alone; with the instance, the unknown id `42` surfaces the
manager's `-22` from the one `setParameter` call, and `pal_gef_rw_param` with
a `dir` other than `GEF_PARAM_WRITE` makes the one `getParameter` call. -/
theorem global_param_needs_resource_manager_witness :
    ((demoEnv .null).getInstance world0.ext).1 = GetInst.null ∧
    pal_set_param (demoEnv .null) 3 none 0 world0
      = .ret (-22) { world0 with ext := 1, trace := [.getInstance] } ∧
    (paramEnv.getInstance world0.ext).1 = GetInst.inst ∧
    pal_set_param paramEnv 42 none 0 world0
      = .ret (-22) { world0 with
          ext := 2, trace := [.getInstance, .rm (.setParameter 42 none 0)] } ∧
    pal_gef_rw_param paramEnv 3 none 0 1 1 0 world0
      = .ret 0 { world0 with
          ext := 2, trace := [.getInstance, .rm (.getParameterDev 3 none 0 1 1)] } :=
  ⟨rfl,
    ((global_param_needs_resource_manager (demoEnv .null) world0 3 none 0 none none 1 1 0).1
      rfl).1,
    rfl,
    ((global_param_needs_resource_manager paramEnv world0 42 none 0 none none 1 1 0).2 rfl).1,
    ((global_param_needs_resource_manager paramEnv world0 3 none 0 none none 1 1 0).2
      rfl).2.2⟩

/-- Claim C12, the code on every non-null handle.  `pal_add_remove_effect` calls
`getStreamType` through its local `s`, which is still `NULL` there: whatever
the stream, the effect and the collaborators, the call dereferences a null
pointer.  It never queries the stream the handle denotes, never returns 0 and
never reaches `addRemoveEffect`. -/
theorem pal_add_remove_effect_dereferences_null {κ : Type} (env : Env κ) (w : World κ)
    (h : Handle) (effect : Nat) (enable : Bool) :
    pal_add_remove_effect env (some h) effect enable w = .fault := by
  simp [pal_add_remove_effect, getStreamType]

/-- Claim C13.  With a non-null handle and a non-null buffer, `pal_stream_read`
and `pal_stream_write` call `Stream::read` / `Stream::write` exactly once and
return exactly the value it returned, negative or not; with a null buffer
they return `-EINVAL`, whatever the handle, and call nothing. -/
theorem read_write_return_stream_result {κ : Type} (env : Env κ) (w : World κ) (h : Handle)
    (b : Nat) (stream_handle : Option Handle) :
    pal_stream_read env (some h) (some b) w
      = .ret (env.streamCall w.ext h (.read (some b))).1
          { w with
            ext := (env.streamCall w.ext h (.read (some b))).2
            trace := w.trace ++ [.stream h (.read (some b))] } ∧
    pal_stream_write env (some h) (some b) w
      = .ret (env.streamCall w.ext h (.write (some b))).1
          { w with
            ext := (env.streamCall w.ext h (.write (some b))).2
            trace := w.trace ++ [.stream h (.write (some b))] } ∧
    pal_stream_read env stream_handle none w = .ret (-EINVAL) w ∧
    pal_stream_write env stream_handle none w = .ret (-EINVAL) w := by
  refine ⟨?_, ?_, ?_, ?_⟩
  · simp [pal_stream_read, invoke, World.log]
    split <;> simp
  · simp [pal_stream_write, invoke, World.log]
    split <;> simp
  · simp [pal_stream_read]
  · simp [pal_stream_write]

/-- Claim C15.  On a non-null handle `pal_stream_close` calls `Stream::close`
once.  If that returns a non-zero status the status is returned, nothing is
deleted and the set of live streams is as before, so the handle still denotes
its stream.  If it returns 0 the stream is deleted exactly once and 0 is
returned; among distinct live streams the handle then denotes none. -/
theorem pal_stream_close_deletes_iff_closed {κ : Type} (env : Env κ) (w : World κ)
    (h : Handle) :
    let r := env.streamCall w.ext h .close
    (r.1 ≠ 0 →
      pal_stream_close env (some h) w
        = .ret r.1 { w with ext := r.2, trace := w.trace ++ [.stream h .close] }) ∧
    (r.1 = 0 →
      pal_stream_close env (some h) w
        = .ret 0 { w with
            ext := env.destroy r.2 h
            live := w.live.erase h
            trace := w.trace ++ [.stream h .close, .delete h] }) ∧
    (w.live.Nodup → h ∉ w.live.erase h) := by
  intro r
  refine ⟨?_, ?_, ?_⟩
  · intro hr
    have h1 : ¬ (0 = (env.streamCall w.ext h .close).1) := fun e => hr e.symm
    simp [pal_stream_close, invoke, World.log, r, h1]
  · intro hr
    have h1 : (env.streamCall w.ext h .close).1 = 0 := hr
    simp [pal_stream_close, invoke, delete, World.log, r, h1]
  · intro hnd hmem
    exact (List.Nodup.mem_erase_iff hnd).mp hmem |>.1 rfl

/-- Witness of C15: of the live streams `5` and `13`, the close of `13` fails
with `-5` and leaves both alive; the close of `5` succeeds and leaves `13`. -/
theorem pal_stream_close_deletes_iff_closed_witness :
    pal_stream_close (demoEnv .inst) (some 13) world2
      = .ret (-5) { world2 with ext := 1, trace := [.stream 13 .close] } ∧
    pal_stream_close (demoEnv .inst) (some 5) world2
      = .ret 0 { world2 with
          ext := 2, live := [13], trace := [.stream 5 .close, .delete 5] } :=
  ⟨(pal_stream_close_deletes_iff_closed (demoEnv .inst) world2 13).1 (by decide),
    (pal_stream_close_deletes_iff_closed (demoEnv .inst) world2 5).2.1 rfl⟩


/-! ## C6: the channel check, on the whole call -/

/-- One iteration of the validation loop, as an equation. -/
theorem set_device_loop_cons {κ : Type} (env : Env κ) (sattr : pal_stream_attributes)
    (devinfo : pal_device_info) (done rest : List pal_device) (p : pal_device) (w : World κ) :
    set_device_loop env true sattr devinfo done (p :: rest) w
      = if (env.getDeviceInfo w.ext p.id sattr.type devinfo).channels = 0 ∨
            (env.getDeviceInfo w.ext p.id sattr.type devinfo).channels
              > (env.getDeviceInfo w.ext p.id sattr.type devinfo).max_channels
        then .ret (.inl (-EINVAL))
          { w with trace := w.trace ++ [.rm (.getDeviceInfo p.id sattr.type)] }
        else if (env.getDeviceConfig w.ext p sattr
            (env.getDeviceInfo w.ext p.id sattr.type devinfo).channels).1.1 ≠ 0
        then .ret (.inl (env.getDeviceConfig w.ext p sattr
            (env.getDeviceInfo w.ext p.id sattr.type devinfo).channels).1.1)
          { w with
            ext := (env.getDeviceConfig w.ext p sattr
              (env.getDeviceInfo w.ext p.id sattr.type devinfo).channels).2
            trace := w.trace ++ [.rm (.getDeviceInfo p.id sattr.type),
              .rm (.getDeviceConfig p sattr
                (env.getDeviceInfo w.ext p.id sattr.type devinfo).channels)] }
        else set_device_loop env true sattr (env.getDeviceInfo w.ext p.id sattr.type devinfo)
          (done ++ [(env.getDeviceConfig w.ext p sattr
            (env.getDeviceInfo w.ext p.id sattr.type devinfo).channels).1.2]) rest
          { w with
            ext := (env.getDeviceConfig w.ext p sattr
              (env.getDeviceInfo w.ext p.id sattr.type devinfo).channels).2
            trace := w.trace ++ [.rm (.getDeviceInfo p.id sattr.type),
              .rm (.getDeviceConfig p sattr
                (env.getDeviceInfo w.ext p.id sattr.type devinfo).channels)] } := by
  by_cases hchk : (env.getDeviceInfo w.ext p.id sattr.type devinfo).channels = 0 ∨
      (env.getDeviceInfo w.ext p.id sattr.type devinfo).max_channels
        < (env.getDeviceInfo w.ext p.id sattr.type devinfo).channels
  · simp [set_device_loop, rmGetDeviceInfo, World.log, hchk]
  · by_cases hcfg : (env.getDeviceConfig w.ext p sattr
        (env.getDeviceInfo w.ext p.id sattr.type devinfo).channels).1.1 = 0
    · simp [set_device_loop, rmGetDeviceInfo, rmGetDeviceConfig, World.log, hchk, hcfg]
    · simp [set_device_loop, rmGetDeviceInfo, rmGetDeviceConfig, World.log, hchk, hcfg]

/-- The validation loop always comes back, either with a status for the
function to return or with the device array. -/
theorem set_device_loop_returns {κ : Type} (env : Env κ) (sattr : pal_stream_attributes) :
    ∀ (devs : List pal_device) (devinfo : pal_device_info) (done : List pal_device)
      (w : World κ),
    ∃ r w1 evs, set_device_loop env true sattr devinfo done devs w = .ret r w1 ∧
      w1.trace = w.trace ++ evs := by
  intro devs
  induction devs with
  | nil =>
    intro devinfo done w
    exact ⟨.inr done, w, [], rfl, by simp⟩
  | cons p rest ih =>
    intro devinfo done w
    rw [set_device_loop_cons]
    split
    · exact ⟨_, _, _, rfl, rfl⟩
    · split
      · exact ⟨_, _, _, rfl, rfl⟩
      · obtain ⟨r, w1, evs, hrun, htr⟩ := ih (env.getDeviceInfo w.ext p.id sattr.type devinfo)
          (done ++ [(env.getDeviceConfig w.ext p sattr
            (env.getDeviceInfo w.ext p.id sattr.type devinfo).channels).1.2])
          { w with
            ext := (env.getDeviceConfig w.ext p sattr
              (env.getDeviceInfo w.ext p.id sattr.type devinfo).channels).2
            trace := w.trace ++ [.rm (.getDeviceInfo p.id sattr.type),
              .rm (.getDeviceConfig p sattr
                (env.getDeviceInfo w.ext p.id sattr.type devinfo).channels)] }
        exact ⟨r, w1, [.rm (.getDeviceInfo p.id sattr.type), .rm (.getDeviceConfig p sattr
          (env.getDeviceInfo w.ext p.id sattr.type devinfo).channels)] ++ evs, hrun,
          by rw [htr]; simp⟩

/-- Over devices that all pass, the validation loop comes to the device after
them in the state `loopState`, having made the calls `loopTrace`. -/
theorem set_device_loop_prefix {κ : Type} (env : Env κ) (sattr : pal_stream_attributes)
    (rest : List pal_device) :
    ∀ (pre : List pal_device) (devinfo : pal_device_info) (done : List pal_device)
      (w : World κ), AllPass env sattr w.ext devinfo pre →
    ∃ done1, set_device_loop env true sattr devinfo done (pre ++ rest) w
      = set_device_loop env true sattr (loopState env sattr w.ext devinfo pre).2 done1 rest
          { w with
            ext := (loopState env sattr w.ext devinfo pre).1
            trace := w.trace ++ loopTrace env sattr w.ext devinfo pre } := by
  intro pre
  induction pre with
  | nil =>
    intro devinfo done w _
    exact ⟨done, by simp [loopState, loopTrace]⟩
  | cons p pre ih =>
    intro devinfo done w hpass
    obtain ⟨hp, hrest⟩ := hpass
    have hchk : ¬ ((env.getDeviceInfo w.ext p.id sattr.type devinfo).channels = 0 ∨
        (env.getDeviceInfo w.ext p.id sattr.type devinfo).channels
          > (env.getDeviceInfo w.ext p.id sattr.type devinfo).max_channels) := by
      rintro (h | h)
      · exact hp (Or.inl h)
      · exact hp (Or.inr (Or.inl h))
    have hcfg : ¬ (env.getDeviceConfig w.ext p sattr
        (env.getDeviceInfo w.ext p.id sattr.type devinfo).channels).1.1 ≠ 0 :=
      fun h => hp (Or.inr (Or.inr h))
    obtain ⟨done1, hrun⟩ := ih (env.getDeviceInfo w.ext p.id sattr.type devinfo)
      (done ++ [(env.getDeviceConfig w.ext p sattr
        (env.getDeviceInfo w.ext p.id sattr.type devinfo).channels).1.2])
      { w with
        ext := (env.getDeviceConfig w.ext p sattr
          (env.getDeviceInfo w.ext p.id sattr.type devinfo).channels).2
        trace := w.trace ++ [.rm (.getDeviceInfo p.id sattr.type),
          .rm (.getDeviceConfig p sattr
            (env.getDeviceInfo w.ext p.id sattr.type devinfo).channels)] } hrest
    refine ⟨done1, ?_⟩
    rw [List.cons_append, set_device_loop_cons, if_neg hchk, if_neg hcfg, hrun]
    simp [loopState, loopTrace]

/-- With the resource manager available and a stream that is not voice-UI,
`pal_stream_set_device` returns what its validation loop hands it, or the
status of `switchDevice` called on the validated devices. -/
theorem set_device_through_loop {κ : Type} (env : Env κ) (w : World κ) (h : Handle)
    (devs : List pal_device) (hg : (env.getInstance w.ext).1 = GetInst.inst)
    (hui : (env.getStreamAttributes (env.getInstance w.ext).2 h).2.type
      ≠ env.PAL_STREAM_VOICE_UI) :
    pal_stream_set_device env (some h) (some devs) w
      = match set_device_loop env true (env.getStreamAttributes (env.getInstance w.ext).2 h).2
          ⟨0, 0⟩ [] devs
          { w with
            ext := (env.getInstance w.ext).2
            trace := w.trace ++ [.getInstance, .stream h .getStreamAttributes] } with
        | .ret (.inl st) w1 => .ret st w1
        | .ret (.inr devs1) w1 =>
          .ret (env.streamCall w1.ext h (.switchDevice (some h) devs1)).1
            { w1 with
              ext := (env.streamCall w1.ext h (.switchDevice (some h) devs1)).2
              trace := w1.trace ++ [.stream h (.switchDevice (some h) devs1)] }
        | .raise w1 => .raise w1
        | .fault => .fault := by
  simp [pal_stream_set_device, getInstance, hg, World.log, getStreamAttributes, hui]
  cases hl : set_device_loop env true (env.getStreamAttributes (env.getInstance w.ext).2 h).2
      ⟨0, 0⟩ [] devs
      { w with
        ext := (env.getInstance w.ext).2
        trace := w.trace ++ [.getInstance, .stream h .getStreamAttributes] } with
  | ret r w1 =>
    cases r with
    | inl st => simp
    | inr devs1 =>
      simp [invoke, World.log]
      split <;> simp
  | raise w1 => simp
  | fault => simp

/-- Claim C6.  The channel check of `pal_stream_set_device`, on the whole call:
resource manager available, stream not voice-UI, device list
`pre ++ d :: post` whose devices before `d` all pass, so that the validation
comes to `d`; `c` and `m` are the channel count and limit that `getDeviceInfo`
gives for `d`.  If `c = 0` or `c > m`, the call returns `-EINVAL` and its last
call is the `getDeviceInfo` of `d`: no `getDeviceConfig` is made for `d`.  If
`1 ≤ c ≤ m` (so also for `c = m`), the call makes `getDeviceConfig(d, sattr, c)`
right after that `getDeviceInfo`, and returns its status when that is
non-zero, with nothing called after it. -/
theorem pal_stream_set_device_channel_check {κ : Type} (env : Env κ) (w : World κ)
    (h : Handle) (pre post : List pal_device) (d : pal_device)
    (hg : (env.getInstance w.ext).1 = GetInst.inst)
    (hui : (env.getStreamAttributes (env.getInstance w.ext).2 h).2.type
      ≠ env.PAL_STREAM_VOICE_UI)
    (hpass : AllPass env (env.getStreamAttributes (env.getInstance w.ext).2 h).2
      (env.getInstance w.ext).2 ⟨0, 0⟩ pre) :
    let k1 := (env.getInstance w.ext).2
    let sattr := (env.getStreamAttributes k1 h).2
    let at_d := loopState env sattr k1 ⟨0, 0⟩ pre
    let info := env.getDeviceInfo at_d.1 d.id sattr.type at_d.2
    let cfg := env.getDeviceConfig at_d.1 d sattr info.channels
    let before : List Event :=
      [.getInstance, .stream h .getStreamAttributes] ++ loopTrace env sattr k1 ⟨0, 0⟩ pre
    (info.channels = 0 ∨ info.channels > info.max_channels →
      pal_stream_set_device env (some h) (some (pre ++ d :: post)) w
        = .ret (-EINVAL) { w with
            ext := at_d.1
            trace := w.trace ++ (before ++ [.rm (.getDeviceInfo d.id sattr.type)]) }) ∧
    (1 ≤ info.channels ∧ info.channels ≤ info.max_channels →
      ∃ status w1 evs,
        pal_stream_set_device env (some h) (some (pre ++ d :: post)) w = .ret status w1 ∧
        w1.trace = w.trace ++ (before ++ [.rm (.getDeviceInfo d.id sattr.type),
          .rm (.getDeviceConfig d sattr info.channels)] ++ evs) ∧
        (cfg.1.1 ≠ 0 → status = cfg.1.1 ∧ evs = [])) := by
  intro k1 sattr at_d info cfg before
  obtain ⟨done1, hpre⟩ := set_device_loop_prefix env sattr (d :: post) pre ⟨0, 0⟩ []
    { w with ext := k1, trace := w.trace ++ [.getInstance, .stream h .getStreamAttributes] }
    hpass
  have hfun := set_device_through_loop env w h (pre ++ d :: post) hg hui
  rw [hpre, set_device_loop_cons] at hfun
  constructor
  · intro hbad
    rw [if_pos hbad] at hfun
    rw [hfun]
    simp [before, at_d, sattr, k1]
  · intro hok
    have hchk : ¬ (info.channels = 0 ∨ info.channels > info.max_channels) := by
      have h1 : 1 ≤ info.channels := hok.1
      have h2 : info.channels ≤ info.max_channels := hok.2
      omega
    rw [if_neg hchk] at hfun
    by_cases hcfg : cfg.1.1 ≠ 0
    · rw [if_pos hcfg] at hfun
      refine ⟨cfg.1.1, _, [], hfun, ?_, fun _ => ⟨rfl, rfl⟩⟩
      simp [before, at_d, sattr, k1, info]
    · rw [if_neg hcfg] at hfun
      obtain ⟨r, w1, evs, hrun, htr⟩ := set_device_loop_returns env sattr post info
        (done1 ++ [cfg.1.2])
        { w with
          ext := cfg.2
          trace := w.trace ++ [.getInstance, .stream h .getStreamAttributes] ++
            loopTrace env sattr k1 ⟨0, 0⟩ pre ++ [.rm (.getDeviceInfo d.id sattr.type),
              .rm (.getDeviceConfig d sattr info.channels)] }
      rw [hrun] at hfun
      cases r with
      | inl st =>
        refine ⟨st, w1, evs, hfun, ?_, fun hne => absurd hne hcfg⟩
        rw [htr]
        simp [before]
      | inr devs1 =>
        refine ⟨_, _, evs ++ [.stream h (.switchDevice (some h) devs1)], hfun, ?_,
          fun hne => absurd hne hcfg⟩
        simp [htr, before]

/-- Witness of C6: stream `1`, devices `2, 9, 3` and `2, 3`.  Device `2`
passes; device `9` has 3 channels of at most 2, so the call returns `-22`
right after the `getDeviceInfo` of `9`; device `3` has 2 channels of at most 2
(the boundary), so `getDeviceConfig` is called for it with channel hint 2. -/
theorem pal_stream_set_device_channel_check_witness :
    ((demoEnv .inst).getInstance world0.ext).1 = GetInst.inst ∧
    ((demoEnv .inst).getStreamAttributes ((demoEnv .inst).getInstance world0.ext).2 1).2.type
      ≠ (demoEnv .inst).PAL_STREAM_VOICE_UI ∧
    AllPass (demoEnv .inst) ⟨1, 1, 0⟩ 1 ⟨0, 0⟩ [⟨2, 0⟩] ∧
    pal_stream_set_device (demoEnv .inst) (some 1) (some [⟨2, 0⟩, ⟨9, 0⟩, ⟨3, 0⟩]) world0
      = .ret (-22) { world0 with
          ext := 2
          trace := [.getInstance, .stream 1 .getStreamAttributes, .rm (.getDeviceInfo 2 1),
            .rm (.getDeviceConfig ⟨2, 0⟩ ⟨1, 1, 0⟩ 2), .rm (.getDeviceInfo 9 1)] } ∧
    ∃ status w1 evs,
      pal_stream_set_device (demoEnv .inst) (some 1) (some [⟨2, 0⟩, ⟨3, 0⟩]) world0
        = .ret status w1 ∧
      w1.trace = [.getInstance, .stream 1 .getStreamAttributes, .rm (.getDeviceInfo 2 1),
        .rm (.getDeviceConfig ⟨2, 0⟩ ⟨1, 1, 0⟩ 2), .rm (.getDeviceInfo 3 1),
        .rm (.getDeviceConfig ⟨3, 0⟩ ⟨1, 1, 0⟩ 2)] ++ evs ∧
      (((demoEnv .inst).getDeviceConfig 2 ⟨3, 0⟩ ⟨1, 1, 0⟩ 2).1.1 ≠ 0 →
        status = ((demoEnv .inst).getDeviceConfig 2 ⟨3, 0⟩ ⟨1, 1, 0⟩ 2).1.1 ∧ evs = []) := by
  have hpass : AllPass (demoEnv .inst) ⟨1, 1, 0⟩ 1 ⟨0, 0⟩ [⟨2, 0⟩] := by
    simp [AllPass, DeviceInvalid, demoEnv]
  exact ⟨rfl, by decide, hpass,
    (pal_stream_set_device_channel_check (demoEnv .inst) world0 1 [⟨2, 0⟩] [⟨3, 0⟩] ⟨9, 0⟩
      rfl (by decide) hpass).1 (Or.inr (by decide)),
    (pal_stream_set_device_channel_check (demoEnv .inst) world0 1 [⟨2, 0⟩] [] ⟨3, 0⟩
      rfl (by decide) hpass).2 ⟨by decide, by decide⟩⟩

end PalApi
